import Mathlib

/-!
Shallow embedding of `src/Collect_reddit_authors_API.py`, a two-phase Reddit
data collector: an author-discovery loop and a per-author backfill loop, both
built on a retrying fetch client and a schema-tolerant field extractor.

Python records are heterogeneous dicts; they are modelled by the `Value`
type below (floats are not modelled: no claim depends on them, and `int()`
on a float is total, so they add no failure mode).  Dicts are modelled as
association lists looked up by first match.  Network calls and the random
source are modelled as explicit oracle inputs.
-/

namespace RedditCollector

/-- A Python value as it can occur in an API response record:
`None`, a bool, an int, a string, a list, or a nested dict. -/
inductive Value where
  | vnone : Value
  | vbool : Bool → Value
  | vint : Int → Value
  | vstr : String → Value
  | vlist : List Value → Value
  | vobj : List (String × Value) → Value

/-- A `SubmissionRecord`: an opaque string-keyed mapping (Python dict),
modelled as an association list with first-match lookup. -/
abbrev Record := List (String × Value)

-- ========== CONFIG (source lines 18-41) ==========

def START_YEAR : Int := 2016
def END_YEAR : Int := 2021
def TARGET_UNIQUE_AUTHORS : Nat := 5000
def MIN_POSTS_PER_AUTHOR : Nat := 20
def MAX_POSTS_PER_AUTHOR : Nat := 100
def PAGE_SIZE : Nat := 100
def MAX_RETRIES : Nat := 5
def MAX_ATTEMPTS_AUTHOR_COLLECTION : Nat := 5000

def TEXT_KEYS : List String := ["selftext", "self_text", "body", "text", "raw_text", "content"]
def TITLE_KEYS : List String := ["title", "post_title", "link_title"]
def NUM_COMMENTS_KEYS : List String := ["num_comments", "numReplies", "num_replies", "comments"]
def SCORE_KEYS : List String := ["score", "ups", "points"]
def CREATED_KEYS : List String := ["created_utc", "created", "created_at", "timestamp"]

-- ========== PYTHON PRIMITIVES USED BY THE SOURCE ==========

/-- Python truthiness: `None`, `False`, `0`, `""` and empty containers are
falsy, everything else is truthy. -/
def truthy : Value → Bool
  | Value.vnone => false
  | Value.vbool b => b
  | Value.vint n => n != 0
  | Value.vstr s => s != ""
  | Value.vlist l => !l.isEmpty
  | Value.vobj l => !l.isEmpty

/-- Python `a or b`: `a` when truthy, else `b`. -/
def pyOr (a b : Value) : Value := if truthy a then a else b

/-- Dict lookup, first matching key. -/
def rlookup (d : Record) (k : String) : Option Value :=
  (d.find? (fun kv => kv.1 == k)).map (fun kv => kv.2)

/-- Python `d.get(k)`: the value, or `None` when the key is absent. -/
def pyGet (d : Record) (k : String) : Value := (rlookup d k).getD Value.vnone

/-- Python `d.get(k, default)`. -/
def pyGetD (d : Record) (k : String) (default : Value) : Value :=
  (rlookup d k).getD default

/-- Membership of a value in the Python tuple `(None, "", [])`.  Python tests
with `==`; none of `None`, `""`, `[]` compares equal to a value of any other
shape, so the test is structural. -/
def inNullEmptyList : Value → Bool
  | Value.vnone => true
  | Value.vstr s => s == ""
  | Value.vlist l => l.isEmpty
  | _ => false

/-- Source `safe_get` (lines 47-51): first candidate key whose value is
present and not `None`, `""` or `[]`; otherwise the default. -/
def safe_get (d : Record) (candidates : List String) (default : Value) : Value :=
  match candidates with
  | [] => default
  | k :: ks =>
    match rlookup d k with
    | some v => if inNullEmptyList v then safe_get d ks default else v
    | none => safe_get d ks default

/-- The client-side submission filter (source lines 159 and 210): keep the
records whose `safe_get(p, TITLE_KEYS)` is truthy. -/
def titleFilter (page : List Record) : List Record :=
  page.filter (fun p => truthy (safe_get p TITLE_KEYS Value.vnone))

mutual

/-- Python `==` on record values.  Booleans compare equal to the ints 0/1
(the Python `bool` type is an `int` subclass).  Dict equality is modelled
structurally on the association list; the collector never compares two
dicts (they are unhashable and crash the set-membership test first). -/
def vbeq : Value → Value → Bool
  | Value.vnone, Value.vnone => true
  | Value.vbool a, Value.vbool b => a == b
  | Value.vbool a, Value.vint b => (if a then (1 : Int) else 0) == b
  | Value.vint a, Value.vbool b => a == (if b then (1 : Int) else 0)
  | Value.vint a, Value.vint b => a == b
  | Value.vstr a, Value.vstr b => a == b
  | Value.vlist a, Value.vlist b => vbeqList a b
  | Value.vobj a, Value.vobj b => vbeqFields a b
  | _, _ => false

def vbeqList : List Value → List Value → Bool
  | [], [] => true
  | x :: xs, y :: ys => vbeq x y && vbeqList xs ys
  | _, _ => false

def vbeqFields : List (String × Value) → List (String × Value) → Bool
  | [], [] => true
  | (k, v) :: xs, (l, w) :: ys => k == l && vbeq v w && vbeqFields xs ys
  | _, _ => false

end

/-- Python set membership `x in s`, elementwise `==`. -/
def memV (a : Value) (l : List Value) : Bool := l.any (fun x => vbeq a x)

/-- The sentinel test `author in ("[deleted]", "AutoModerator")` (source line 164). -/
def isSentinel (a : Value) : Bool :=
  vbeq a (Value.vstr "[deleted]") || vbeq a (Value.vstr "AutoModerator")

/-- Lists and dicts are unhashable in Python: using one in a set-membership
test (`author in collected_authors`, source line 166) raises `TypeError`. -/
def isUnhashable : Value → Bool
  | Value.vlist _ => true
  | Value.vobj _ => true
  | _ => false

/-- Holds (`true`) when no element of the list is `==`-equal to a later one. -/
def distinctB : List Value → Bool
  | [] => true
  | a :: as_ => !(memV a as_) && distinctB as_

-- ========== int() AND str() ==========

/-- Digits-to-Nat accumulator. -/
def natFromDigits (cs : List Char) : Nat :=
  cs.foldl (fun a c => a * 10 + (c.toNat - 48)) 0

/-- Python `int(s)` on a string: surrounding whitespace stripped, optional
sign, then a non-empty run of ASCII digits (digit-group underscores are not
modelled).  `none` models the raised `ValueError`. -/
def parseIntStr (s : String) : Option Int :=
  let cs := ((s.toList.dropWhile Char.isWhitespace).reverse.dropWhile Char.isWhitespace).reverse
  match cs with
  | [] => none
  | c :: rest =>
    let digits := if c = '+' || c = '-' then rest else cs
    let sign : Int := if c = '-' then -1 else 1
    if digits ≠ [] ∧ digits.all Char.isDigit then some (sign * natFromDigits digits)
    else none

/-- Python `int(v)` for the value shapes of the model; `none` models the
exception (`ValueError` for a bad string, `TypeError` otherwise). -/
def pyToInt : Value → Option Int
  | Value.vbool b => some (if b then 1 else 0)
  | Value.vint n => some n
  | Value.vstr s => parseIntStr s
  | _ => none

/-- Python `int(v)` with the raised exception made explicit. -/
def pyToIntE : Value → Except String Int
  | Value.vbool b => Except.ok (if b then 1 else 0)
  | Value.vint n => Except.ok n
  | Value.vstr s =>
    match parseIntStr s with
    | some n => Except.ok n
    | none => Except.error "ValueError"
  | _ => Except.error "TypeError"

/-- Python `repr` of a string: quoted, preferring single quotes, escaping
the backslash, the chosen quote, and newline/return/tab. -/
def pyQuote (s : String) : String :=
  let sq := Char.ofNat 39
  let dq := Char.ofNat 34
  let bs := Char.ofNat 92
  let q := if s.contains sq && !(s.contains dq) then dq else sq
  let esc := s.toList.foldr
    (fun c acc =>
      (if c = bs then [bs, bs]
       else if c = q then [bs, c]
       else if c = Char.ofNat 10 then [bs, Char.ofNat 110]
       else if c = Char.ofNat 13 then [bs, Char.ofNat 114]
       else if c = Char.ofNat 9 then [bs, Char.ofNat 116]
       else [c]) ++ acc) []
  String.mk (q :: (esc ++ [q]))

mutual

/-- Python `repr(v)`. -/
def pyRepr : Value → String
  | Value.vnone => "None"
  | Value.vbool b => if b then "True" else "False"
  | Value.vint n => toString n
  | Value.vstr s => pyQuote s
  | Value.vlist xs => "[" ++ pyReprList xs ++ "]"
  | Value.vobj fs => "\x7b" ++ pyReprFields fs ++ "\x7d"

def pyReprList : List Value → String
  | [] => ""
  | [x] => pyRepr x
  | x :: xs => pyRepr x ++ ", " ++ pyReprList xs

def pyReprFields : List (String × Value) → String
  | [] => ""
  | [(k, v)] => pyQuote k ++ ": " ++ pyRepr v
  | (k, v) :: fs => pyQuote k ++ ": " ++ pyRepr v ++ ", " ++ pyReprFields fs

end

/-- Python `str(v)`: the string itself for strings, `repr` otherwise. -/
def pyStr : Value → String
  | Value.vstr s => s
  | v => pyRepr v

-- ========== UTC CALENDAR ARITHMETIC ==========

/-- Left-pad a decimal to two digits (strftime %m %d %H %M %S). -/
def pad2 (n : Nat) : String :=
  if n < 10 then "0" ++ toString n else toString n

/-- Left-pad a decimal to four digits (strftime %Y). -/
def pad4 (n : Nat) : String :=
  if n < 10 then "000" ++ toString n
  else if n < 100 then "00" ++ toString n
  else if n < 1000 then "0" ++ toString n
  else toString n

/-- Proleptic-Gregorian civil date from a day count relative to 1970-01-01
(the Howard Hinnant `civil_from_days` algorithm): `(year, month, day)`. -/
def civilFromDays (days : Int) : Int × Nat × Nat :=
  let z := days + 719468
  let era := z.fdiv 146097
  let doe : Nat := (z - era * 146097).toNat
  let yoe := (doe - doe / 1460 + doe / 36524 - doe / 146096) / 365
  let y : Int := (yoe : Int) + era * 400
  let doy := doe - (365 * yoe + yoe / 4 - yoe / 100)
  let mp := (5 * doy + 2) / 153
  let d := doy - (153 * mp + 2) / 5 + 1
  let m := if mp < 10 then mp + 3 else mp - 9
  (if m ≤ 2 then y + 1 else y, m, d)

/-- Day count relative to 1970-01-01 of a civil date (the Hinnant
`days_from_civil` algorithm). -/
def daysFromCivil (year : Int) (month day : Nat) : Int :=
  let y := if month ≤ 2 then year - 1 else year
  let era := y.fdiv 400
  let yoe : Nat := (y - era * 400).toNat
  let doy := (153 * (if month > 2 then month - 3 else month + 9) + 2) / 5 + day - 1
  let doe := yoe * 365 + yoe / 4 - yoe / 100 + doy
  era * 146097 + (doe : Int) - 719468

/-- Source `to_unix` (lines 44-45): `calendar.timegm` of a UTC civil time. -/
def to_unix (year : Int) (month day hour minute second : Nat) : Int :=
  daysFromCivil year month day * 86400 + hour * 3600 + minute * 60 + second

/-- Models `datetime.fromtimestamp(ts, tz=timezone.utc).strftime("%Y-%m-%d %H:%M:%S")`
(source line 56).  `none` models the `OverflowError`/`ValueError` raised when
the timestamp falls outside the `datetime` year range 1..9999. -/
def formatTimestamp (ts : Int) : Option String :=
  let days := ts.fdiv 86400
  let sod : Nat := (ts.emod 86400).toNat
  let c := civilFromDays days
  if 1 ≤ c.1 ∧ c.1 ≤ 9999 then
    some (pad4 c.1.toNat ++ "-" ++ pad2 c.2.1 ++ "-" ++ pad2 c.2.2 ++ " " ++
      pad2 (sod / 3600) ++ ":" ++ pad2 (sod % 3600 / 60) ++ ":" ++ pad2 (sod % 60))
  else none

-- ========== FIELD EXTRACTOR (source lines 53-77) ==========

/-- A `NormalizedRow`: the fixed-schema output written to the CSV.  Python
puts no type constraint on the values, so most fields are raw `Value`s. -/
structure Row where
  subreddit : Value
  id : Value
  score : Value
  numReplies : Int
  author : Value
  title : Value
  text : Value
  is_self : Value
  domain : Value
  url : Value
  permalink : Value
  upvote_ratio : Value
  date_created : String

instance : Inhabited Value := ⟨Value.vnone⟩

instance : Inhabited Row :=
  ⟨⟨Value.vnone, Value.vnone, Value.vnone, 0, Value.vnone, Value.vnone, Value.vnone,
    Value.vnone, Value.vnone, Value.vnone, Value.vnone, Value.vnone, ""⟩⟩

/-- The value the source feeds to `int(...)` for the reply count
(source line 67): `safe_get(post, NUM_COMMENTS_KEYS, 0) or 0`. -/
def numRepliesArg (post : Record) : Value :=
  pyOr (safe_get post NUM_COMMENTS_KEYS (Value.vint 0)) (Value.vint 0)

/-- Source `created_iso` (lines 54-58): empty when the creation value is
absent or falsy; otherwise the formatted UTC timestamp, falling back to the
raw `str(...)` of the value when `int()` or `fromtimestamp` raises. -/
def createdIso (post : Record) : String :=
  let created_val := safe_get post CREATED_KEYS Value.vnone
  if truthy created_val then
    match pyToInt created_val with
    | some n =>
      match formatTimestamp n with
      | some s => s
      | none => pyStr created_val
    | none => pyStr created_val
  else ""

/-- Source `extract_post_info` (lines 53-77).  The only uncaught exception
is the `int(...)` on the reply count; it is surfaced in the `Except`. -/
def extract_post_info (post : Record) : Except String Row :=
  let created_iso := createdIso post
  let text_val := safe_get post TEXT_KEYS (Value.vstr "")
  let title_val := safe_get post TITLE_KEYS (Value.vstr "")
  match pyToIntE (numRepliesArg post) with
  | Except.error e => Except.error e
  | Except.ok numReplies =>
    Except.ok
      { subreddit := pyOr (pyGet post "subreddit") (pyOr (pyGet post "subreddit_name") (Value.vstr ""))
        id := pyOr (pyGet post "id") (pyOr (pyGet post "post_id") (Value.vstr ""))
        score := safe_get post SCORE_KEYS Value.vnone
        numReplies := numReplies
        author := pyOr (pyGet post "author") (pyOr (pyGet post "username") (Value.vstr ""))
        title := pyOr title_val (Value.vstr "")
        text := pyOr text_val (Value.vstr "")
        is_self := pyGetD post "is_self" (Value.vbool (truthy text_val))
        domain := pyOr (pyGet post "domain") (Value.vstr "")
        url := pyOr (pyGet post "url") (Value.vstr "")
        permalink := pyOr (pyGet post "permalink")
          (Value.vstr ("/r/" ++ pyStr (pyGetD post "subreddit" (Value.vstr "")) ++
            "/comments/" ++ pyStr (pyGetD post "id" (Value.vstr ""))))
        upvote_ratio := pyOr (pyGet post "upvote_ratio") Value.vnone
        date_created := created_iso }

-- ========== FETCH CLIENT (source lines 79-113) ==========

/-- Response-shape unwrap (source lines 102-105): the list is accepted under
`data`/`results`/`posts`, and one further `children`/`items` wrapper is
unwrapped.  A non-dict body makes `data.get(...)` raise `AttributeError`,
which `fetch_posts` does not catch. -/
def unwrapPosts (data : Value) : Except String Value :=
  match data with
  | Value.vobj fields =>
    let posts := pyOr (pyGet fields "data")
      (pyOr (pyGet fields "results") (pyOr (pyGet fields "posts") (Value.vlist [])))
    match posts with
    | Value.vobj f2 =>
      Except.ok (pyOr (pyGet f2 "children") (pyOr (pyGet f2 "items") (Value.vlist [])))
    | p => Except.ok p
  | _ => Except.error "AttributeError"

/-- One attempt outcome of `requests.get(...)` + `raise_for_status` +
`r.json()`: a transport-level failure (`requests.exceptions.RequestException`)
or a parsed JSON body. -/
abbrev FetchOracle := Nat → Except Unit Value

/-- The retry loop of `fetch_posts` (source lines 97-113).  `retries` is the counter of the source; `budget` is the number of iterations the guard
`retries <= MAX_RETRIES` still allows, i.e. `MAX_RETRIES + 1 - retries`.
Returns the backoff waits performed (`2 ** retries` after each failure,
source line 109) together with the returned value or the uncaught
exception. -/
def fetchAttempts (oracle : FetchOracle) (retries budget : Nat) :
    List Nat × Except String Value :=
  match budget with
  | 0 => ([], Except.ok (Value.vlist []))
  | b + 1 =>
    match oracle retries with
    | Except.ok data => ([], unwrapPosts data)
    | Except.error _ =>
      let wait := 2 ^ (retries + 1)
      let rest := fetchAttempts oracle (retries + 1) b
      (wait :: rest.1, rest.2)

/-- Source `fetch_posts`: the retry loop started at `retries = 0`. -/
def fetch_posts (oracle : FetchOracle) : List Nat × Except String Value :=
  fetchAttempts oracle 0 (MAX_RETRIES + 1)

-- ========== AUTHOR DISCOVERY LOOP (source lines 122-182) ==========

/-- Discovery-phase state: the author set (a Python `set`, modelled as the
list of its elements), the rows written to the CSV, `total_collected`, and
the attempt counter. -/
structure DState where
  authors : List Value
  rows : List Row
  total : Nat
  attempts : Nat

/-- The `for post in posts_with_title` body (source lines 162-175): skip
falsy or sentinel authors, skip authors already in the set, otherwise write
the normalized row, add the author and bump `total_collected`, breaking once
the target is reached.  The `Bool` is `true` when the iteration crashed: an
unhashable author value in the set-membership test (`TypeError`) or an
uncaught exception from `extract_post_info`. -/
def discoverPosts (st : DState) : List Record → DState × Bool
  | [] => (st, false)
  | p :: ps =>
    let author := pyGet p "author"
    if !truthy author || isSentinel author then discoverPosts st ps
    else if isUnhashable author then (st, true)
    else if memV author st.authors then discoverPosts st ps
    else
      match extract_post_info p with
      | Except.error _ => (st, true)
      | Except.ok row =>
        let st2 : DState :=
          { st with authors := author :: st.authors, rows := st.rows ++ [row],
                    total := st.total + 1 }
        if TARGET_UNIQUE_AUTHORS ≤ st2.total then (st2, false)
        else discoverPosts st2 ps

/-- The author-collection `while` loop (source lines 132-177).  Each element
of `pages` is the page obtained for one attempt after the two `fetch_posts`
calls (with the link filter, then without when the first was empty); an
empty page models both calls returning empty.  The run returns the final
state together with a crash flag; an exhausted oracle returns the state
reached so far. -/
def runDiscovery (st : DState) : List (List Record) → DState × Bool
  | [] => (st, false)
  | page :: rest =>
    if st.authors.length < TARGET_UNIQUE_AUTHORS ∧
        st.attempts < MAX_ATTEMPTS_AUTHOR_COLLECTION then
      let st1 : DState := { st with attempts := st.attempts + 1 }
      if page.isEmpty then runDiscovery st1 rest
      else
        let dp := discoverPosts st1 (titleFilter page)
        if dp.2 then (dp.1, true) else runDiscovery dp.1 rest
    else (st, false)

-- ========== PER-AUTHOR BACKFILL LOOP (source lines 191-240) ==========

/-- Models `random.randint(a, b)`: an integer in the inclusive range `[a, b]`,
selected by the draw `r` of the random source. -/
def randint (a b r : Nat) : Nat := a + r % (b + 1 - a)

/-- Per-author backfill state: `author_posts_collected`, the cursor field
`after_ts`, and `author_attempts`. -/
structure BState where
  collected : Nat
  after_ts : Int
  attempts : Nat
deriving DecidableEq

/-- How one iteration of the backfill `while` body ended: fall through to
the next iteration, `break` out of the loop, or crash with an uncaught
exception. -/
inductive StepOut where
  | goOn : StepOut
  | stopped : StepOut
  | crashed : StepOut
deriving DecidableEq

/-- The `for post in posts` persist loop (source lines 222-227): write
normalized rows and count them until the page is exhausted or the target is
reached.  Returns the new count and a crash flag (uncaught exception from
`extract_post_info`). -/
def persistLoop (target collected : Nat) : List Record → Nat × Bool
  | [] => (collected, false)
  | p :: ps =>
    if target ≤ collected then (collected, false)
    else
      match extract_post_info p with
      | Except.error _ => (collected, true)
      | Except.ok _ => persistLoop target (collected + 1) ps

/-- One iteration of the backfill `while` body (source lines 199-238).
`page` is the fetched page after the no-filter fallback (line 205);
`shuffle` is the in-place `random.shuffle` of line 220, modelled as the
permutation the random source produces.  Crashes are a failed extraction or
`posts[-1]` on an empty list. -/
def backfillStep (target : Nat) (st : BState) (page : List Record)
    (shuffle : List Record → List Record) : BState × StepOut :=
  let st1 : BState := { st with attempts := st.attempts + 1 }
  if page.isEmpty then (st1, StepOut.stopped)
  else
    let filtered := titleFilter page
    if filtered.isEmpty then
      ({ st1 with after_ts := st1.after_ts + 60 * 60 * 24 * 7 }, StepOut.goOn)
    else
      let shuffled := shuffle filtered
      let pr := persistLoop target st1.collected shuffled
      let st2 : BState := { st1 with collected := pr.1 }
      if pr.2 then (st2, StepOut.crashed)
      else
        match shuffled.getLast? with
        | none => (st2, StepOut.crashed)
        | some lastp =>
          let lastCreated :=
            pyOr (pyGet lastp "created_utc") (pyOr (pyGet lastp "created") Value.vnone)
          if truthy lastCreated then
            match pyToInt lastCreated with
            | some n => ({ st2 with after_ts := n + 1 }, StepOut.goOn)
            | none => (st2, StepOut.stopped)
          else (st2, StepOut.goOn)

/-- One oracle input for a backfill iteration: the fetched page (after the
no-filter fallback) and the shuffle permutation drawn for it. -/
abbrev BPageIn := List Record × (List Record → List Record)

/-- The backfill `while` loop of one author (source lines 199-238): iterate while
`author_posts_collected < num_posts_target and author_attempts < 200`,
consuming one oracle input per iteration.  An exhausted oracle returns the
state reached so far with `goOn`. -/
def backfillRun (target : Nat) (st : BState) : List BPageIn → BState × StepOut
  | [] =>
    if st.collected < target ∧ st.attempts < 200 then (st, StepOut.goOn)
    else (st, StepOut.stopped)
  | i :: rest =>
    if st.collected < target ∧ st.attempts < 200 then
      let so := backfillStep target st i.1 i.2
      match so.2 with
      | StepOut.goOn => backfillRun target so.1 rest
      | out => (so.1, out)
    else (st, StepOut.stopped)

-- ========== HELPER DEFINITIONS FOR THE STATEMENTS ==========

/-- The candidate-key test `k in d and d[k] not in (None, "", [])` as a
predicate on one key. -/
def usableKey (d : Record) (k : String) : Bool :=
  match rlookup d k with
  | some v => !inNullEmptyList v
  | none => false

/-- Holds (`true`) when no element of the list is a sentinel author. -/
def noSentinels (l : List Value) : Bool := l.all (fun a => !isSentinel a)

-- ========== HELPER LEMMAS ==========

theorem persistLoop_collected_le (target : Nat) :
    ∀ (l : List Record) (c : Nat), c ≤ target → (persistLoop target c l).1 ≤ target := by
  intro l
  induction l with
  | nil => intro c h; simpa [persistLoop] using h
  | cons p ps ih =>
    intro c h
    unfold persistLoop
    by_cases hc : target ≤ c
    · rw [if_pos hc]; exact h
    · rw [if_neg hc]
      cases extract_post_info p with
      | error e => exact h
      | ok r => exact ih (c + 1) (by omega)

theorem backfillStep_collected_le (target : Nat) (st : BState) (page : List Record)
    (shuffle : List Record → List Record) (h : st.collected ≤ target) :
    (backfillStep target st page shuffle).1.collected ≤ target := by
  unfold backfillStep
  dsimp only
  split
  · exact h
  · split
    · exact h
    · have hp := persistLoop_collected_le target (shuffle (titleFilter page)) st.collected h
      split
      · exact hp
      · split
        · exact hp
        · split
          · split
            · exact hp
            · exact hp
          · exact hp

theorem backfillRun_collected_le (target : Nat) :
    ∀ (inputs : List BPageIn) (st : BState), st.collected ≤ target →
      (backfillRun target st inputs).1.collected ≤ target := by
  intro inputs
  induction inputs with
  | nil =>
    intro st h
    unfold backfillRun
    split <;> exact h
  | cons i rest ih =>
    intro st h
    unfold backfillRun
    dsimp only
    split
    · have hs := backfillStep_collected_le target st i.1 i.2 h
      split
      · exact ih _ hs
      · exact hs
    · exact h

theorem discoverPosts_inv :
    ∀ (posts : List Record) (st : DState),
      distinctB st.authors = true → noSentinels st.authors = true →
      st.rows.length = st.authors.length →
      distinctB (discoverPosts st posts).1.authors = true ∧
      noSentinels (discoverPosts st posts).1.authors = true ∧
      (discoverPosts st posts).1.rows.length = (discoverPosts st posts).1.authors.length := by
  intro posts
  induction posts with
  | nil => intro st h1 h2 h3; exact ⟨h1, h2, h3⟩
  | cons p ps ih =>
    intro st h1 h2 h3
    unfold discoverPosts
    dsimp only
    by_cases hskip : (!truthy (pyGet p "author") || isSentinel (pyGet p "author")) = true
    · rw [if_pos hskip]
      exact ih st h1 h2 h3
    · rw [if_neg hskip]
      by_cases hun : isUnhashable (pyGet p "author") = true
      · rw [if_pos hun]
        exact ⟨h1, h2, h3⟩
      · rw [if_neg hun]
        by_cases hmem : memV (pyGet p "author") st.authors = true
        · rw [if_pos hmem]
          exact ih st h1 h2 h3
        · rw [if_neg hmem]
          cases hext : extract_post_info p with
          | error e => exact ⟨h1, h2, h3⟩
          | ok row =>
            dsimp only
            have hor : (!truthy (pyGet p "author") || isSentinel (pyGet p "author")) = false := by
              simpa using hskip
            have hsent : isSentinel (pyGet p "author") = false :=
              (Bool.or_eq_false_iff.mp hor).2
            have hmemf : memV (pyGet p "author") st.authors = false := by
              simpa using hmem
            have h1' : distinctB (pyGet p "author" :: st.authors) = true := by
              simp [distinctB, hmemf, h1]
            have h2' : noSentinels (pyGet p "author" :: st.authors) = true := by
              have h2b : st.authors.all (fun a => !isSentinel a) = true := h2
              simp [noSentinels, hsent, h2b]
            have h3' : (st.rows ++ [row]).length = (pyGet p "author" :: st.authors).length := by
              simp [h3]
            by_cases htot : TARGET_UNIQUE_AUTHORS ≤ st.total + 1
            · rw [if_pos htot]
              exact ⟨h1', h2', h3'⟩
            · rw [if_neg htot]
              exact ih _ h1' h2' h3'

theorem runDiscovery_inv :
    ∀ (pages : List (List Record)) (st : DState),
      distinctB st.authors = true → noSentinels st.authors = true →
      st.rows.length = st.authors.length →
      distinctB (runDiscovery st pages).1.authors = true ∧
      noSentinels (runDiscovery st pages).1.authors = true ∧
      (runDiscovery st pages).1.rows.length = (runDiscovery st pages).1.authors.length := by
  intro pages
  induction pages with
  | nil => intro st h1 h2 h3; exact ⟨h1, h2, h3⟩
  | cons page rest ih =>
    intro st h1 h2 h3
    unfold runDiscovery
    dsimp only
    split
    · split
      · exact ih _ h1 h2 h3
      · have hd := discoverPosts_inv (titleFilter page)
          { st with attempts := st.attempts + 1 } h1 h2 h3
        split
        · exact hd
        · exact ih _ hd.1 hd.2.1 hd.2.2
    · exact ⟨h1, h2, h3⟩

-- ========== CLAIMS ==========

/-- C1 (counterexample): `extract_post_info` is not total.  On the record
`{"num_comments": "abc"}` the uncaught `int("abc")` on the reply count
raises `ValueError`, so no `NormalizedRow` is produced. -/
theorem c1_counterexample :
    extract_post_info [("num_comments", Value.vstr "abc")] = Except.error "ValueError" := rfl

/-- C1 (amended): `extract_post_info` returns a `NormalizedRow` exactly when
the `int(...)` conversion of the selected reply-count value
(`safe_get(post, NUM_COMMENTS_KEYS, 0) or 0`) succeeds; every other part of
the extraction is total, but a record whose reply-count candidate holds a
truthy non-integer value makes the extraction raise. -/
theorem c1_extract_total_iff (post : Record) :
    (∃ row, extract_post_info post = Except.ok row) ↔
    (∃ n, pyToIntE (numRepliesArg post) = Except.ok n) := by
  unfold extract_post_info
  cases hn : pyToIntE (numRepliesArg post) with
  | error e => simp
  | ok n => simp

/-- C2 (code evaluated at the failing input): an ascending page whose two
records were created at 100 and 200, with the shuffle reversing them.  The
code persists both and then sets `after` from `posts[-1]` of the SHUFFLED
list — the record created at 100 — yielding `after = 101`, not the
`200 + 1 = 201` that the last record in pre-shuffle (fetch) order gives. -/
theorem c2_cursor_uses_shuffled_last :
    backfillStep 30 ⟨0, 50, 0⟩
      [[("title", Value.vstr "x"), ("created_utc", Value.vint 100)],
       [("title", Value.vstr "x"), ("created_utc", Value.vint 200)]]
      List.reverse = (⟨2, 101, 1⟩, StepOut.goOn) := rfl

/-- C3 (counterexample): a page whose (single, hence last) record has no
`created_utc`/`created` key does NOT abort the loop of that author: the guard
`if last_created:` skips the advance and the loop runs a second iteration,
fetching and persisting again (`attempts = 2`, `collected = 2`). -/
theorem c3_counterexample :
    backfillRun 30 ⟨0, 1000, 0⟩
      [([[("title", Value.vstr "x")]], fun l => l),
       ([[("title", Value.vstr "x")]], fun l => l)] = (⟨2, 1000, 2⟩, StepOut.goOn) := rfl

/-- C3 (amended): after persisting a non-empty page, the loop of an author
aborts only when the creation value of the last record (`created_utc`, else
`created`) is truthy but not integer-convertible; when that value is absent
(or otherwise falsy) the loop does NOT abort — it continues to the next
iteration with the cursor unchanged. -/
theorem c3_absent_timestamp_continues (target : Nat) (st : BState) (page : List Record)
    (shuffle : List Record → List Record) (lastp : Record)
    (hp : page.isEmpty = false)
    (hf : (titleFilter page).isEmpty = false)
    (hcr : (persistLoop target st.collected (shuffle (titleFilter page))).2 = false)
    (hl : (shuffle (titleFilter page)).getLast? = some lastp) :
    (truthy (pyOr (pyGet lastp "created_utc") (pyOr (pyGet lastp "created") Value.vnone)) = true →
      pyToInt (pyOr (pyGet lastp "created_utc") (pyOr (pyGet lastp "created") Value.vnone)) = none →
      (backfillStep target st page shuffle).2 = StepOut.stopped) ∧
    (truthy (pyOr (pyGet lastp "created_utc") (pyOr (pyGet lastp "created") Value.vnone)) = false →
      (backfillStep target st page shuffle).2 = StepOut.goOn ∧
      (backfillStep target st page shuffle).1.after_ts = st.after_ts) := by
  unfold backfillStep
  dsimp only
  rw [hp, hf, hl, hcr]
  dsimp only
  constructor
  · intro ht hn
    rw [ht, hn]
    rfl
  · intro ht
    rw [ht]
    constructor <;> rfl

/-- C3 (witness): on a concrete page whose last record carries the truthy
non-numeric creation value `"abc"`, the step aborts the loop. -/
theorem c3_witness :
    (backfillStep 30 ⟨0, 5, 0⟩
      [[("title", Value.vstr "t"), ("created_utc", Value.vstr "abc")]] (fun l => l)).2 =
      StepOut.stopped :=
  (c3_absent_timestamp_continues 30 ⟨0, 5, 0⟩
    [[("title", Value.vstr "t"), ("created_utc", Value.vstr "abc")]] (fun l => l)
    [("title", Value.vstr "t"), ("created_utc", Value.vstr "abc")]
    rfl rfl rfl rfl).1 rfl rfl

/-- C4 (counterexample): on `{"created_utc": 0}` a numeric creation value is
found, yet `date_created` is the empty string (the `if created_val` guard
tests truthiness, so the numeric value 0 is treated like an absent one), not
the formatted `"1970-01-01 00:00:00"` the claim requires — and so the empty
string does not appear only when the value is absent. -/
theorem c4_counterexample :
    (extract_post_info [("created_utc", Value.vint 0)]).map (fun r => r.date_created) =
      Except.ok "" := rfl

/-- C4 (amended): `date_created` is the `YYYY-MM-DD HH:MM:SS` UTC rendering
of the found creation value when that value is truthy, integer-convertible
and within the representable `datetime` year range; the raw string
representation when it is truthy but fails conversion or formatting; and the
empty string when it is absent OR falsy (in particular for the numeric value
0).  The `date_created` field of the row is exactly this `created_iso` value. -/
theorem c4_date_created_cases (post : Record) :
    (truthy (safe_get post CREATED_KEYS Value.vnone) = false → createdIso post = "") ∧
    (∀ n s, truthy (safe_get post CREATED_KEYS Value.vnone) = true →
      pyToInt (safe_get post CREATED_KEYS Value.vnone) = some n →
      formatTimestamp n = some s → createdIso post = s) ∧
    (truthy (safe_get post CREATED_KEYS Value.vnone) = true →
      pyToInt (safe_get post CREATED_KEYS Value.vnone) = none →
      createdIso post = pyStr (safe_get post CREATED_KEYS Value.vnone)) ∧
    (∀ n, truthy (safe_get post CREATED_KEYS Value.vnone) = true →
      pyToInt (safe_get post CREATED_KEYS Value.vnone) = some n →
      formatTimestamp n = none →
      createdIso post = pyStr (safe_get post CREATED_KEYS Value.vnone)) ∧
    (∀ row, extract_post_info post = Except.ok row → row.date_created = createdIso post) := by
  refine ⟨?_, ?_, ?_, ?_, ?_⟩
  · intro ht
    unfold createdIso
    dsimp only
    rw [ht]
    rfl
  · intro n s ht hn hs
    unfold createdIso
    dsimp only
    rw [ht, hn]
    dsimp only
    rw [hs]
    rfl
  · intro ht hn
    unfold createdIso
    dsimp only
    rw [ht, hn]
    rfl
  · intro n ht hn hs
    unfold createdIso
    dsimp only
    rw [ht, hn]
    dsimp only
    rw [hs]
    rfl
  · intro row hok
    unfold extract_post_info at hok
    cases hn : pyToIntE (numRepliesArg post) with
    | error e => rw [hn] at hok; cases hok
    | ok m => rw [hn] at hok; cases hok; rfl

/-- C5 (counterexample): on `{"subreddit_name": "x", "post_id": "y"}` (no
permalink key) the community and id fields of the row are `"x"` and `"y"` via the
alternate-key fallbacks, but the derived permalink uses the raw `subreddit`
and `id` keys only and comes out `"/r//comments/"`, disagreeing with the
own fields of the row. -/
theorem c5_counterexample :
    (extract_post_info [("subreddit_name", Value.vstr "x"), ("post_id", Value.vstr "y")]).map
      (fun r => (r.subreddit, r.id, r.permalink)) =
      Except.ok (Value.vstr "x", Value.vstr "y", Value.vstr "/r//comments/") := rfl

/-- C5 (amended): when the `permalink` value of the record is absent (or falsy),
the emitted permalink is `/r/{s}/comments/{i}` with `s` and `i` the raw
`subreddit` and `id` keys of the record (str()-converted, defaulting to the
empty string when the key is absent) — WITHOUT the `subreddit_name`/`post_id`
fallbacks used for the community and id fields of the row, so it can disagree
with those fields. -/
theorem c5_permalink_derivation (post : Record) (row : Row)
    (hok : extract_post_info post = Except.ok row)
    (habs : truthy (pyGet post "permalink") = false) :
    row.permalink = Value.vstr ("/r/" ++ pyStr (pyGetD post "subreddit" (Value.vstr "")) ++
      "/comments/" ++ pyStr (pyGetD post "id" (Value.vstr ""))) := by
  unfold extract_post_info at hok
  cases hn : pyToIntE (numRepliesArg post) with
  | error e => rw [hn] at hok; cases hok
  | ok m =>
    rw [hn] at hok
    cases hok
    show pyOr (pyGet post "permalink") _ = _
    unfold pyOr
    rw [habs]
    simp

/-- C5 (witness): the concrete record of the counterexample, driven through
the amended statement. -/
theorem c5_witness :
    ((extract_post_info [("subreddit_name", Value.vstr "x"),
        ("post_id", Value.vstr "y")]).toOption.get!).permalink =
      Value.vstr "/r//comments/" :=
  c5_permalink_derivation
    [("subreddit_name", Value.vstr "x"), ("post_id", Value.vstr "y")] _ rfl rfl

/-- C6: `safe_get` scans the candidate keys in order and returns the value
of the first key that is present with a value other than `None`, `""` and
`[]` (`List.find?` over the candidate list), falling back to the default;
in particular a record with `selftext: ""` and `body: "hello"` extracts the
body text `"hello"`. -/
theorem c6_key_priority :
    (∀ (d : Record) (cs : List String) (dflt : Value),
      safe_get d cs dflt =
        match cs.find? (usableKey d) with
        | some k => (rlookup d k).getD dflt
        | none => dflt) ∧
    (extract_post_info [("selftext", Value.vstr ""), ("body", Value.vstr "hello")]).map
      (fun r => r.text) = Except.ok (Value.vstr "hello") := by
  constructor
  · intro d cs dflt
    induction cs with
    | nil => rfl
    | cons k ks ih =>
      unfold safe_get
      rw [List.find?]
      cases hk : rlookup d k with
      | none =>
        have hu : usableKey d k = false := by unfold usableKey; rw [hk]
        rw [hu]
        dsimp only
        exact ih
      | some v =>
        cases hnl : inNullEmptyList v with
        | true =>
          have hu : usableKey d k = false := by
            unfold usableKey; rw [hk]; dsimp only; rw [hnl]; rfl
          rw [hu]
          dsimp only
          rw [if_pos hnl]
          exact ih
        | false =>
          have hu : usableKey d k = true := by
            unfold usableKey; rw [hk]; dsimp only; rw [hnl]; rfl
          have hcond : ¬(inNullEmptyList v = true) := by
            rw [hnl]; exact Bool.false_ne_true
          rw [hu]
          dsimp only
          rw [if_neg hcond, hk]
          rfl
  · rfl

/-- C7: for any random draw and any sequence of fetched pages and shuffles,
the per-author backfill run never collects more rows than the per-author
target `random.randint(MIN_POSTS_PER_AUTHOR, MAX_POSTS_PER_AUTHOR)`, and
that target always lies in the inclusive range [20, 100]. -/
theorem c7_target_respected (r : Nat) (inputs : List BPageIn) :
    (backfillRun (randint MIN_POSTS_PER_AUTHOR MAX_POSTS_PER_AUTHOR r)
      ⟨0, to_unix START_YEAR 1 1 0 0 0, 0⟩ inputs).1.collected ≤
      randint MIN_POSTS_PER_AUTHOR MAX_POSTS_PER_AUTHOR r ∧
    MIN_POSTS_PER_AUTHOR ≤ randint MIN_POSTS_PER_AUTHOR MAX_POSTS_PER_AUTHOR r ∧
    randint MIN_POSTS_PER_AUTHOR MAX_POSTS_PER_AUTHOR r ≤ MAX_POSTS_PER_AUTHOR := by
  refine ⟨backfillRun_collected_le _ inputs _ (Nat.zero_le _), ?_, ?_⟩
  · unfold randint MIN_POSTS_PER_AUTHOR MAX_POSTS_PER_AUTHOR
    omega
  · unfold randint MIN_POSTS_PER_AUTHOR MAX_POSTS_PER_AUTHOR
    omega

/-- C8: one backfill iteration never moves the cursor bound `after` backwards:
provided the shuffle only permutes the page (membership-preserving, as
`random.shuffle` is) and every record of the page carries a creation value
at or after the current `after` bound (the query window the API was asked
for), the state after the step has `after_ts` at least the old one — the
one-week advance on a title-less page and the `last_created + 1` advance
both only increase it. -/
theorem c8_cursor_monotone (target : Nat) (st : BState) (page : List Record)
    (shuffle : List Record → List Record)
    (hsh : ∀ (l : List Record) (p : Record), p ∈ shuffle l → p ∈ l)
    (hwin : ∀ p ∈ page, ∀ n : Int,
      pyToInt (pyOr (pyGet p "created_utc") (pyOr (pyGet p "created") Value.vnone)) = some n →
      st.after_ts ≤ n) :
    st.after_ts ≤ (backfillStep target st page shuffle).1.after_ts := by
  unfold backfillStep
  dsimp only
  split
  · exact le_refl _
  · split
    · dsimp only
      omega
    · split
      · exact le_refl _
      · split
        · exact le_refl _
        · rename_i lastp hl
          split
          · rename_i hny
            split
            · rename_i n hn
              have hmem : lastp ∈ page := by
                have h1 : lastp ∈ shuffle (titleFilter page) := by
                  rcases List.mem_getLast?_eq_getLast (l := shuffle (titleFilter page))
                    (x := lastp) (by rw [hl]; rfl) with ⟨hne, hx⟩
                  rw [hx]
                  exact List.getLast_mem hne
                exact List.filter_subset' page (hsh _ _ h1)
              have := hwin lastp hmem n hn
              dsimp only
              omega
            · exact le_refl _
          · exact le_refl _

/-- C8 (witness): concrete instance — identity shuffle, one record created
at 150, cursor at 100; the step leaves the cursor at 151 ≥ 100. -/
theorem c8_witness :
    (⟨0, 100, 0⟩ : BState).after_ts ≤
      (backfillStep 30 ⟨0, 100, 0⟩
        [[("title", Value.vstr "t"), ("created_utc", Value.vint 150)]] (fun l => l)).1.after_ts :=
  c8_cursor_monotone 30 ⟨0, 100, 0⟩
    [[("title", Value.vstr "t"), ("created_utc", Value.vint 150)]] (fun l => l)
    (fun _ _ hp => hp)
    (by
      intro p hp n hn
      rcases List.mem_singleton.mp hp with rfl
      cases hn
      decide)

/-- C9: if every attempt of `fetch_posts` fails at the transport level, the
retry loop performs the backoff waits `2^1 .. 2^(MAX_RETRIES+1)` seconds and
then returns the empty list — no exception reaches the caller. -/
theorem c9_transport_failures_degrade (oracle : FetchOracle)
    (h : ∀ n, oracle n = Except.error ()) :
    fetch_posts oracle = ([2, 4, 8, 16, 32, 64], Except.ok (Value.vlist [])) := by
  unfold fetch_posts MAX_RETRIES
  simp [fetchAttempts, h]

/-- C9 (witness): the all-failures oracle, concretely. -/
theorem c9_witness :
    fetch_posts (fun _ => Except.error ()) = ([2, 4, 8, 16, 32, 64], Except.ok (Value.vlist [])) :=
  c9_transport_failures_degrade (fun _ => Except.error ()) (fun _ => rfl)

/-- C10: after any run of the author-discovery loop started from the empty
state, the author set contains no value twice, contains neither
`"[deleted]"` nor `"AutoModerator"`, and exactly one row was persisted per
author added (the row count equals the author count). -/
theorem c10_authorset_invariants (pages : List (List Record)) :
    distinctB (runDiscovery ⟨[], [], 0, 0⟩ pages).1.authors = true ∧
    noSentinels (runDiscovery ⟨[], [], 0, 0⟩ pages).1.authors = true ∧
    (runDiscovery ⟨[], [], 0, 0⟩ pages).1.rows.length =
      (runDiscovery ⟨[], [], 0, 0⟩ pages).1.authors.length :=
  runDiscovery_inv pages ⟨[], [], 0, 0⟩ rfl rfl rfl

end RedditCollector

